import Mathlib

/-!
Verification of the real-estate-calculator financial engine.

Shallow embedding conventions:
* JavaScript numbers are modelled as exact rationals (`ℚ`); all the constants
  appearing in the verified claims (0.02, 0.01, percentages) are exactly
  representable decimals, and the claims' tolerances (0.01, 0.05) absorb any
  IEEE-754 rounding that the exact-rational model elides.
* Where a claim is specifically about IEEE special values (division by zero
  producing Infinity/NaN in the ROI schedule), a dedicated `JSNum` type models
  the special-value propagation exactly (see the `roiJS` development below).
* The authoritative revision of `data/transformations.js` is the one the
  repository's regression tests exercise (the revision with the
  `initialValues` aggregator parameter, the `entry.payment` lookup and the
  gap-free schedule extender, found in the repository alongside a superseded
  earlier revision of the same file).
-/

/-- One row of the amortization schedule, as pushed by `calculateAmortization`
(`src/core/calculations.js`).  `month` is kept as `ℤ` because callers shift the
1-based month numbers down by one before further processing. -/
structure AmortEntry where
  month : ℤ
  payment : ℚ
  interestPayment : ℚ
  principalPayment : ℚ
  balance : ℚ
  totalInterest : ℚ
  deriving Repr, DecidableEq

/-- The principal share of one loop iteration of `calculateAmortization`
(`src/core/calculations.js` lines 24-35): `monthlyPayment` minus the interest
share `balance * monthlyRate`, capped at 0 when non-positive, then clamped to
the remaining balance. -/
def principalOf (monthlyPayment monthlyRate balance : ℚ) : ℚ :=
  let pp0 := monthlyPayment - balance * monthlyRate
  let pp1 := if pp0 ≤ 0 then 0 else pp0
  if balance < pp1 then balance else pp1

/-- The end-of-iteration snap of `calculateAmortization`
(`src/core/calculations.js` line 50): a balance below 0.01 becomes exactly 0. -/
def snapBalance (balance : ℚ) : ℚ := if balance < 1/100 then 0 else balance

/-- The `while (balance > 0 && month < MAX_MONTHS)` loop of
`calculateAmortization`, with the remaining iteration budget
(`MAX_MONTHS - month`) passed as structural fuel.  Each iteration computes the
interest share `balance * monthlyRate` and the capped-and-clamped principal
share, pushes the entry (whose recorded balance is the pre-snap value), and
continues with the snapped balance (`src/core/calculations.js` lines 23-51). -/
def amortLoop (monthlyPayment monthlyRate : ℚ) :
    ℕ → ℚ → ℚ → ℕ → List AmortEntry
  | 0, _, _, _ => []
  | fuel + 1, balance, totalInterest, month =>
    if 0 < balance then
      ⟨((month + 1 : ℕ) : ℤ),
        principalOf monthlyPayment monthlyRate balance + balance * monthlyRate,
        balance * monthlyRate,
        principalOf monthlyPayment monthlyRate balance,
        balance - principalOf monthlyPayment monthlyRate balance,
        totalInterest + balance * monthlyRate⟩ ::
      amortLoop monthlyPayment monthlyRate fuel
        (snapBalance (balance - principalOf monthlyPayment monthlyRate balance))
        (totalInterest + balance * monthlyRate) (month + 1)
    else []

/-- `calculateAmortization(principal, monthlyPayment, annualRate)`
(`src/core/calculations.js` lines 13-54).  `MAX_MONTHS = 1200`. -/
def calculateAmortization (principal monthlyPayment annualRate : ℚ) :
    List AmortEntry :=
  amortLoop monthlyPayment (annualRate / 100 / 12) 1200 principal 0 0

/-- Result record of `calculateGermanTaxSavings` (`src/core/calculations.js`
lines 65-89). -/
structure TaxResult where
  annualDepreciation : ℚ
  annualInterest : ℚ
  annualExpenses : ℚ
  totalDeductible : ℚ
  annualRentalIncome : ℚ
  netRentalResult : ℚ
  taxSavings : ℚ
  deriving Repr, DecidableEq

/-- `calculateGermanTaxSavings(buildingValue, annualInterest, annualExpenses,
taxRate, annualRentalIncome)`: 2% flat depreciation, deductibles summed,
tax savings only on a rental loss (`src/core/calculations.js` lines 65-89). -/
def calculateGermanTaxSavings (buildingValue annualInterest annualExpenses
    taxRate annualRentalIncome : ℚ) : TaxResult :=
  let annualDepreciation := buildingValue * (2/100)
  let totalDeductible := annualDepreciation + annualInterest + annualExpenses
  let netRentalResult := annualRentalIncome - totalDeductible
  let taxSavings :=
    if netRentalResult < 0 then |netRentalResult| * (taxRate / 100) else 0
  ⟨annualDepreciation, annualInterest, annualExpenses, totalDeductible,
    annualRentalIncome, netRentalResult, taxSavings⟩

/-- `new Date(y, m, 1).getFullYear()` year normalisation: JavaScript maps a
year argument 0-99 to 1900+year at construction. -/
def jsFullYear (y : ℕ) : ℕ := if y ≤ 99 then 1900 + y else y

/-- Calendar year of simulation month `k`: the code builds
`new Date(startYear, startMonth, 1)`, advances it by `k` months with
`setMonth`, and reads `getFullYear()`; for `startMonth` and `k` non-negative
this is `startYear` (normalised) plus `(startMonth + k) / 12` whole years. -/
def dateYear (startYear startMonth k : ℕ) : ℕ :=
  jsFullYear startYear + (startMonth + k) / 12

/-- Downward scan of `getMonthsInYear` (`src/core/calculations.js` lines
109-117): walk `m` from the current month down to 0, recording `m` as
`firstMonthOfYear` while its calendar year matches, and stopping at the first
mismatch (the accumulator holds the last recorded value). -/
def firstMonthScan (startYear startMonth currentYear : ℕ) :
    ℕ → ℕ → ℕ
  | 0, acc => if dateYear startYear startMonth 0 = currentYear then 0 else acc
  | k + 1, acc =>
    if dateYear startYear startMonth (k + 1) = currentYear then
      firstMonthScan startYear startMonth currentYear k (k + 1)
    else acc

/-- Upward scan of `getMonthsInYear` (`src/core/calculations.js` lines
120-128): walk `m` from the current month up to `maxMonths`, recording `m` as
`lastMonthOfYear` while its calendar year matches; `fuel` is the number of
remaining loop iterations (`maxMonths + 1 - m`). -/
def lastMonthScan (startYear startMonth currentYear : ℕ) :
    ℕ → ℕ → ℕ → ℕ
  | 0, _, acc => acc
  | fuel + 1, k, acc =>
    if dateYear startYear startMonth k = currentYear then
      lastMonthScan startYear startMonth currentYear fuel (k + 1) k
    else acc

/-- `getMonthsInYear(month, startMonth, startYear, maxMonths)`
(`src/core/calculations.js` lines 99-131); the source defaults
`maxMonths = 480`.  Returns `lastMonthOfYear - firstMonthOfYear + 1`. -/
def getMonthsInYear (month startMonth startYear maxMonths : ℕ) : ℤ :=
  let currentYear := dateYear startYear startMonth month
  let firstMonthOfYear := firstMonthScan startYear startMonth currentYear month month
  let lastMonthOfYear :=
    lastMonthScan startYear startMonth currentYear (maxMonths + 1 - month) month month
  (lastMonthOfYear : ℤ) - (firstMonthOfYear : ℤ) + 1

/-- Output of `calculateOptimalScenario` (`src/core/optimization.js`). -/
structure OptimalResult where
  monthlyPayment : ℚ
  minRent : ℚ
  deriving Repr, DecidableEq

/-- `Number(x.toFixed(2))`: rounding to two decimal places. -/
def jsToFixed2 (q : ℚ) : ℚ := (round (q * 100) : ℤ) / 100

/-- `calculateOptimalScenario(debtAmount, interestRate, buildingValue,
annualExpenses, taxRate, applyTax, targetCashFlow, targetRepaymentRate)`
(`src/core/optimization.js` lines 100-157); the source defaults
`targetCashFlow = 0` and `targetRepaymentRate = 2.0`. -/
def calculateOptimalScenario (debtAmount interestRate buildingValue
    annualExpenses taxRate : ℚ) (applyTax : Bool)
    (targetCashFlow targetRepaymentRate : ℚ) : OptimalResult :=
  let monthlyInterestRate := interestRate / 100 / 12
  let initialMonthlyInterest := debtAmount * monthlyInterestRate
  let monthlyRepayment := debtAmount * (targetRepaymentRate / 100) / 12
  let optimalMonthlyPayment := initialMonthlyInterest + monthlyRepayment
  let minRent :=
    if applyTax then
      let monthlyAfA := buildingValue * (2/100) / 12
      let monthlyExpenses := annualExpenses / 12
      let monthlyDeductibles := initialMonthlyInterest + monthlyAfA + monthlyExpenses
      let t := taxRate / 100
      if 99/100 ≤ t then optimalMonthlyPayment + targetCashFlow
      else (optimalMonthlyPayment + targetCashFlow - monthlyDeductibles * t) / (1 - t)
    else optimalMonthlyPayment + targetCashFlow
  ⟨jsToFixed2 optimalMonthlyPayment, jsToFixed2 minRent⟩

/-- `extendAmortizationSchedule(amortization, targetMonths)`
(`data/transformations.js`, current revision): pads the schedule with
zero-flow entries from `last.month + 1` (or month 0 on an empty input) through
`targetMonths`, each carrying the final `totalInterest`.  The source omits the
`payment` field on padded entries; it is modelled as 0 (nothing downstream of
the extender reads it). -/
def extendAmortizationSchedule (amortization : List AmortEntry)
    (targetMonths : ℤ) : List AmortEntry :=
  let finalTotalInterest :=
    match amortization.getLast? with
    | some e => e.totalInterest
    | none => 0
  let nextMonthNum : ℤ :=
    match amortization.getLast? with
    | some e => e.month + 1
    | none => 0
  let padCount := (targetMonths + 1 - nextMonthNum).toNat
  amortization ++ (List.range padCount).map
    (fun i => ⟨nextMonthNum + i, 0, 0, 0, 0, finalTotalInterest⟩)

/-- A monthly record consumed by `aggregateToCalendarYears`.  The source
receives plain JS objects whose fields may each be absent (`undefined`),
modelled with `Option`.  The tax-savings pass-through fields
(`annualRentalIncome`, `annualDepreciation`, ..., `totalDeductible`) are
orthogonal to every verified property and are omitted. -/
structure MonthData where
  month : ℕ
  rentIncome : Option ℚ
  mortgagePayment : Option ℚ
  taxOnRent : Option ℚ
  taxReimbursement : Option ℚ
  netCashFlow : Option ℚ
  interestPayment : Option ℚ
  principalPayment : Option ℚ
  balance : Option ℚ
  totalInterest : Option ℚ
  cumulative : Option ℚ
  cumulativeIlliquid : Option ℚ
  totalCumulative : Option ℚ
  deriving Repr, DecidableEq

/-- The optional `initialValues` argument of `aggregateToCalendarYears`. -/
structure InitialValues where
  balance : Option ℚ
  cumulative : Option ℚ
  cumulativeIlliquid : Option ℚ
  totalCumulative : Option ℚ
  deriving Repr, DecidableEq

/-- The running `lastState` tracker of `aggregateToCalendarYears`. -/
structure RunState where
  balance : ℚ
  cumulative : ℚ
  cumulativeIlliquid : ℚ
  totalCumulative : ℚ
  deriving Repr, DecidableEq

/-- `lastState` initialisation: `initialValues.x || 0` (for these numeric
fields `|| 0` coincides with defaulting an absent value to 0). -/
def initRunState (iv : InitialValues) : RunState :=
  ⟨iv.balance.getD 0, iv.cumulative.getD 0, iv.cumulativeIlliquid.getD 0,
    iv.totalCumulative.getD 0⟩

/-- `lastState` update at the end of each iteration: every field that the
record defines overwrites the running value. -/
def updateRunState (s : RunState) (md : MonthData) : RunState :=
  ⟨md.balance.getD s.balance, md.cumulative.getD s.cumulative,
    md.cumulativeIlliquid.getD s.cumulativeIlliquid,
    md.totalCumulative.getD s.totalCumulative⟩

/-- One calendar-year bucket built by `aggregateToCalendarYears`: summed flow
fields, end-of-year state snapshots (last defined value wins) and
beginning-of-year state snapshots fixed at bucket creation. -/
structure YearBucket where
  year : ℕ
  months : List MonthData
  annualRentIncome : ℚ
  annualMortgagePayment : ℚ
  annualTaxOnRent : ℚ
  annualTaxReimbursement : ℚ
  annualNetCashFlow : ℚ
  annualInterestPayment : ℚ
  annualPrincipalPayment : ℚ
  balance : ℚ
  totalInterest : ℚ
  cumulative : ℚ
  cumulativeIlliquid : ℚ
  totalCumulative : ℚ
  balanceStart : ℚ
  cumulativeStart : ℚ
  cumulativeIlliquidStart : ℚ
  totalCumulativeStart : ℚ
  deriving Repr, DecidableEq

/-- Bucket creation (`if (!yearlyData[year]) { ... }`): flow sums start at 0
and the beginning-of-year snapshot is the caller-supplied initial values when
the record's month index is 0, and the running `lastState` otherwise. -/
def newBucket (iv : InitialValues) (lastState : RunState) (year : ℕ)
    (md : MonthData) : YearBucket :=
  let bs := if md.month = 0 then iv.balance.getD 0 else lastState.balance
  let cs := if md.month = 0 then iv.cumulative.getD 0 else lastState.cumulative
  let is_ :=
    if md.month = 0 then iv.cumulativeIlliquid.getD 0 else lastState.cumulativeIlliquid
  let ts :=
    if md.month = 0 then iv.totalCumulative.getD 0 else lastState.totalCumulative
  ⟨year, [], 0, 0, 0, 0, 0, 0, 0, 0, 0, 0, 0, 0, bs, cs, is_, ts⟩

/-- Folding one monthly record into its bucket: push the record, add every
defined flow field to the year sums, and overwrite the end-of-year state
snapshots with every defined state field. -/
def bucketAdd (b : YearBucket) (md : MonthData) : YearBucket :=
  { b with
    months := b.months ++ [md]
    annualRentIncome := b.annualRentIncome + md.rentIncome.getD 0
    annualMortgagePayment := b.annualMortgagePayment + md.mortgagePayment.getD 0
    annualTaxOnRent := b.annualTaxOnRent + md.taxOnRent.getD 0
    annualTaxReimbursement := b.annualTaxReimbursement + md.taxReimbursement.getD 0
    annualNetCashFlow := b.annualNetCashFlow + md.netCashFlow.getD 0
    annualInterestPayment := b.annualInterestPayment + md.interestPayment.getD 0
    annualPrincipalPayment := b.annualPrincipalPayment + md.principalPayment.getD 0
    balance := md.balance.getD b.balance
    totalInterest := md.totalInterest.getD b.totalInterest
    cumulative := md.cumulative.getD b.cumulative
    cumulativeIlliquid := md.cumulativeIlliquid.getD b.cumulativeIlliquid
    totalCumulative := md.totalCumulative.getD b.totalCumulative }

/-- Mutable state of the `monthlyData.forEach` loop: the `yearlyData`
dictionary (an insertion-ordered year-keyed association list) and `lastState`. -/
structure AggState where
  buckets : List (ℕ × YearBucket)
  lastState : RunState

/-- One iteration of the `monthlyData.forEach` loop of
`aggregateToCalendarYears`: derive the calendar year, create the year's bucket
if absent (fixing its beginning-of-year snapshot), fold the record into the
bucket, and update the running `lastState`. -/
def aggStep (startMonth startYear : ℕ) (iv : InitialValues)
    (st : AggState) (md : MonthData) : AggState :=
  let y := dateYear startYear startMonth md.month
  let buckets :=
    if st.buckets.any (fun p => p.1 = y) then st.buckets
    else st.buckets ++ [(y, newBucket iv st.lastState y md)]
  ⟨buckets.map (fun p => if p.1 = y then (p.1, bucketAdd p.2 md) else p),
    updateRunState st.lastState md⟩

/-- Insertion step of the final ascending-by-year sort. -/
def insertByYear (b : YearBucket) : List YearBucket → List YearBucket
  | [] => [b]
  | c :: t => if b.year ≤ c.year then b :: c :: t else c :: insertByYear b t

/-- `Object.values(yearlyData).sort((a, b) => a.year - b.year)`: buckets in
ascending calendar-year order (bucket years are pairwise distinct, so the
order is unique and an insertion sort models it exactly). -/
def sortByYear : List YearBucket → List YearBucket
  | [] => []
  | b :: t => insertByYear b (sortByYear t)

/-- `aggregateToCalendarYears(monthlyData, startMonth, startYear,
initialValues)` (`data/transformations.js`, current revision): fold every
monthly record in order, then return the buckets sorted by year. -/
def aggregateToCalendarYears (monthlyData : List MonthData)
    (startMonth startYear : ℕ) (iv : InitialValues) : List YearBucket :=
  let final := monthlyData.foldl (aggStep startMonth startYear iv)
    ⟨[], initRunState iv⟩
  sortByYear (final.buckets.map Prod.snd)

/-- The `params` object destructured by `calculateInvestmentMetrics`
(`data/transformations.js`, current revision).  `interestRate` is carried but
not read by the function, mirroring the source. -/
structure MetricsParams where
  purchasePrice : ℚ
  additionalCosts : ℚ
  expectedRent : ℚ
  debtAmount : ℚ
  monthlyPayment : ℚ
  interestRate : ℚ
  applyGermanTax : Bool
  buildingValue : ℚ
  taxRate : ℚ
  annualExpenses : ℚ
  startMonth : ℕ
  startYear : ℕ
  propertyWorth : ℚ
  deriving Repr

/-- `equity = purchasePrice + additionalCosts - debtAmount`. -/
def metricsEquity (p : MetricsParams) : ℚ :=
  p.purchasePrice + p.additionalCosts - p.debtAmount

/-- Month `m` payment lookup: the amortization entry's own `payment` field
when the entry exists, else 0 (loan paid off). -/
def entryPayment (amortization : List AmortEntry) (m : ℕ) : ℚ :=
  match amortization.get? m with
  | some e => e.payment
  | none => 0

/-- Month `m` interest lookup from the amortization entry, else 0. -/
def entryInterest (amortization : List AmortEntry) (m : ℕ) : ℚ :=
  match amortization.get? m with
  | some e => e.interestPayment
  | none => 0

/-- Month `m` principal lookup from the amortization entry, else 0. -/
def entryPrincipal (amortization : List AmortEntry) (m : ℕ) : ℚ :=
  match amortization.get? m with
  | some e => e.principalPayment
  | none => 0

/-- Month `m` remaining-balance lookup from the amortization entry, else 0. -/
def entryBalance (amortization : List AmortEntry) (m : ℕ) : ℚ :=
  match amortization.get? m with
  | some e => e.balance
  | none => 0

/-- Month `m` tax on the rental profit/loss (signed: negative is a
reimbursement), computed when `applyGermanTax` from monthly-prorated
depreciation and expenses plus the month's interest. -/
def metricsTaxOnRent (p : MetricsParams) (amortization : List AmortEntry)
    (m : ℕ) : ℚ :=
  if p.applyGermanTax then
    let monthlyAfA := p.buildingValue * (2/100) / 12
    let monthlyExpenses := p.annualExpenses / 12
    let monthlyDeductibles := monthlyAfA + entryInterest amortization m + monthlyExpenses
    (p.expectedRent - monthlyDeductibles) * (p.taxRate / 100)
  else 0

/-- `netMonthlyCashFlow = rentIncome - mortgagePayment - taxOnRent`. -/
def metricsNetCashFlow (p : MetricsParams) (amortization : List AmortEntry)
    (m : ℕ) : ℚ :=
  p.expectedRent - entryPayment amortization m - metricsTaxOnRent p amortization m

/-- The running `cumulativeCashFlow` after processing month `m`: starts at
`-equity` and adds each month's net cash flow through `m`. -/
def metricsCumulative (p : MetricsParams) (amortization : List AmortEntry)
    (m : ℕ) : ℚ :=
  (List.range (m + 1)).foldl
    (fun acc k => acc + metricsNetCashFlow p amortization k) (-metricsEquity p)

/-- `cumulativeIlliquid = (purchasePrice - debtAmount) + (debtAmount -
currentBalance)`: initial property equity plus cumulative principal paid. -/
def metricsCumulativeIlliquid (p : MetricsParams)
    (amortization : List AmortEntry) (m : ℕ) : ℚ :=
  (p.purchasePrice - p.debtAmount) + (p.debtAmount - entryBalance amortization m)

/-- `totalCumulative = cumulative + cumulativeIlliquid`. -/
def metricsTotalCumulative (p : MetricsParams) (amortization : List AmortEntry)
    (m : ℕ) : ℚ :=
  metricsCumulative p amortization m + metricsCumulativeIlliquid p amortization m

/-- One `cashFlowSchedule` point. -/
structure CashFlowPoint where
  month : ℕ
  cumulative : ℚ
  cumulativeIlliquid : ℚ
  totalCumulative : ℚ
  deriving Repr, DecidableEq

/-- The 481-entry `cashFlowSchedule` (months 0..480 inclusive). -/
def cashFlowSchedule (p : MetricsParams) (amortization : List AmortEntry) :
    List CashFlowPoint :=
  (List.range 481).map (fun m =>
    ⟨m, metricsCumulative p amortization m,
      metricsCumulativeIlliquid p amortization m,
      metricsTotalCumulative p amortization m⟩)

/-- One `monthlyCashFlowSchedule` record, including the state fields passed
through for aggregation. -/
structure MonthlyCashFlowRecord where
  month : ℕ
  cashFlow : ℚ
  rentIncome : ℚ
  mortgagePayment : ℚ
  taxOnRent : ℚ
  taxReimbursement : ℚ
  netCashFlow : ℚ
  annualRentIncome : ℚ
  annualMortgagePayment : ℚ
  annualTaxOnRent : ℚ
  annualTaxReimbursement : ℚ
  annualNetCashFlow : ℚ
  cumulative : ℚ
  cumulativeIlliquid : ℚ
  totalCumulative : ℚ
  balance : ℚ
  totalInterest : ℚ
  principalPayment : ℚ
  interestPayment : ℚ
  deriving Repr, DecidableEq

/-- `amortization.length > 0 ? amortization[amortization.length-1].totalInterest : 0`. -/
def metricsTotalInterest (amortization : List AmortEntry) : ℚ :=
  match amortization.getLast? with
  | some e => e.totalInterest
  | none => 0

/-- The record's `totalInterest: amortization[month]?.totalInterest ||
totalInterest` — JavaScript `||` falls back when the entry is absent or its
value is 0 (falsy). -/
def recordTotalInterest (amortization : List AmortEntry) (m : ℕ) : ℚ :=
  match amortization.get? m with
  | some e => if e.totalInterest = 0 then metricsTotalInterest amortization else e.totalInterest
  | none => metricsTotalInterest amortization

/-- The month-`m` record of `monthlyCashFlowSchedule`; `monthsInYearFn` is the
dependency-injected `getMonthsInYearFn(month, startMonth, startYear)`. -/
def monthlyRecord (p : MetricsParams) (amortization : List AmortEntry)
    (monthsInYearFn : ℕ → ℕ → ℕ → ℤ) (m : ℕ) : MonthlyCashFlowRecord :=
  let netCF := metricsNetCashFlow p amortization m
  let tax := metricsTaxOnRent p amortization m
  let monthsInThisYear : ℚ := (monthsInYearFn m p.startMonth p.startYear : ℚ)
  ⟨m, netCF, p.expectedRent, entryPayment amortization m, tax,
    -(min 0 tax), netCF,
    p.expectedRent * monthsInThisYear,
    entryPayment amortization m * monthsInThisYear,
    tax * monthsInThisYear,
    -(min 0 tax) * monthsInThisYear,
    netCF * monthsInThisYear,
    metricsCumulative p amortization m,
    metricsCumulativeIlliquid p amortization m,
    metricsTotalCumulative p amortization m,
    entryBalance amortization m,
    recordTotalInterest amortization m,
    entryPrincipal amortization m,
    entryInterest amortization m⟩

/-- The 481-entry `monthlyCashFlowSchedule`. -/
def monthlyCashFlowSchedule (p : MetricsParams) (amortization : List AmortEntry)
    (monthsInYearFn : ℕ → ℕ → ℕ → ℤ) : List MonthlyCashFlowRecord :=
  (List.range 481).map (monthlyRecord p amortization monthsInYearFn)

/-- `breakEvenMonth = cashFlowSchedule.findIndex(item => item.cumulative >= 0)`
(`-1` modelled as `none`). -/
def breakEvenMonth (p : MetricsParams) (amortization : List AmortEntry) :
    Option ℕ :=
  (cashFlowSchedule p amortization).findIdx? (fun item => 0 ≤ item.cumulative)

/-- `breakEvenYears = breakEvenMonth >= 0 ? breakEvenMonth / 12 : 0`. -/
def metricsBreakEvenYears (p : MetricsParams) (amortization : List AmortEntry) : ℚ :=
  match breakEvenMonth p amortization with
  | some i => (i : ℚ) / 12
  | none => 0

/-- `minCumulative = Math.min(...cashFlowSchedule.map(item => item.cumulative))`. -/
def metricsMinCumulative (p : MetricsParams) (amortization : List AmortEntry) : ℚ :=
  ((cashFlowSchedule p amortization).map (fun item => item.cumulative)).foldl
    min (metricsCumulative p amortization 0)

/-- `maxInvestmentNeeded = Math.abs(minCumulative)`. -/
def metricsMaxInvestmentNeeded (p : MetricsParams)
    (amortization : List AmortEntry) : ℚ :=
  |metricsMinCumulative p amortization|

/-- `maxInvestmentAtYears`: month index of the cumulative minimum, / 12. -/
def metricsMaxInvestmentAtYears (p : MetricsParams)
    (amortization : List AmortEntry) : ℚ :=
  match (cashFlowSchedule p amortization).findIdx?
      (fun item => item.cumulative = metricsMinCumulative p amortization) with
  | some i => (i : ℚ) / 12
  | none => 0

/-- One `roiSchedule` point (exact-rational model; `JSNum` variant below). -/
structure RoiPoint where
  month : ℕ
  roi : ℚ
  deriving Repr, DecidableEq

/-- The `roiSchedule` loop: rent received plus linear 3%-per-year property
appreciation, divided by equity (exact-rational model; `ℚ` division by zero
yields 0 here — the IEEE behaviour is captured by `roiScheduleJS`). -/
def roiSchedule (p : MetricsParams) : List RoiPoint :=
  (List.range 481).map (fun (m : ℕ) =>
    let totalRentReceived := p.expectedRent * (m : ℚ)
    let propertyAppreciation :=
      p.propertyWorth * (1 + (3/100) * ((m : ℚ) / 12)) - p.propertyWorth
    ⟨m, (totalRentReceived + propertyAppreciation) / metricsEquity p * 100⟩)

/-- `roi10Years = roiSchedule[120]?.roi || 0`. -/
def metricsRoi10Years (p : MetricsParams) : ℚ :=
  match (roiSchedule p).get? 120 with
  | some x => if x.roi = 0 then 0 else x.roi
  | none => 0

/-- The full return object of `calculateInvestmentMetrics`. -/
structure MetricsResult where
  totalInvestment : ℚ
  equity : ℚ
  payoffYears : ℚ
  totalInterest : ℚ
  breakEvenYears : ℚ
  maxInvestmentNeeded : ℚ
  maxInvestmentAtYears : ℚ
  roi10Years : ℚ
  monthlyCashFlowSchedule : List MonthlyCashFlowRecord
  cashFlowSchedule : List CashFlowPoint
  roiSchedule : List RoiPoint
  deriving Repr

/-- `calculateInvestmentMetrics(params, amortization, getMonthsInYearFn)`
(`data/transformations.js`, current revision). -/
def calculateInvestmentMetrics (p : MetricsParams)
    (amortization : List AmortEntry)
    (monthsInYearFn : ℕ → ℕ → ℕ → ℤ) : MetricsResult :=
  ⟨p.purchasePrice + p.additionalCosts,
    metricsEquity p,
    (amortization.length : ℚ) / 12,
    metricsTotalInterest amortization,
    metricsBreakEvenYears p amortization,
    metricsMaxInvestmentNeeded p amortization,
    metricsMaxInvestmentAtYears p amortization,
    metricsRoi10Years p,
    monthlyCashFlowSchedule p amortization monthsInYearFn,
    cashFlowSchedule p amortization,
    roiSchedule p⟩

/-- A JavaScript IEEE-754 number at exact-rational precision: a finite value,
a signed infinity, or NaN.  Used where a verified property depends on the
special values themselves (the unguarded division by `equity`). -/
inductive JSNum where
  | num (q : ℚ)
  | inf
  | negInf
  | nan
  deriving Repr, DecidableEq

/-- IEEE division of finite values: a nonzero value divided by zero gives a
signed infinity, `0 / 0` gives NaN. -/
def jsDiv (a b : ℚ) : JSNum :=
  if b = 0 then
    if a = 0 then .nan else if 0 < a then .inf else .negInf
  else .num (a / b)

/-- IEEE multiplication of a (possibly special) value by a finite constant. -/
def jsMulFin (x : JSNum) (c : ℚ) : JSNum :=
  match x with
  | .num a => .num (a * c)
  | .inf => if 0 < c then .inf else if c < 0 then .negInf else .nan
  | .negInf => if 0 < c then .negInf else if c < 0 then .inf else .nan
  | .nan => .nan

/-- `Number.isFinite`. -/
def JSNum.isFinite : JSNum → Bool
  | .num _ => true
  | _ => false

/-- JavaScript truthiness of a number: `0` and `NaN` are falsy. -/
def JSNum.truthy : JSNum → Bool
  | .num q => q ≠ 0
  | .inf => true
  | .negInf => true
  | .nan => false

/-- JavaScript `x || d` on numbers. -/
def jsOr (x : JSNum) (d : JSNum) : JSNum := if x.truthy then x else d

/-- One `roiSchedule` point with IEEE special values. -/
structure RoiPointJS where
  month : ℕ
  roi : JSNum
  deriving Repr, DecidableEq

/-- One iteration of the `roiSchedule` loop of `calculateInvestmentMetrics`
with IEEE special-value semantics: `roi = (totalGains / equity) * 100`, where
a zero `equity` makes the division produce Infinity or NaN. -/
def roiPointJS (p : MetricsParams) (m : ℕ) : RoiPointJS :=
  let totalRentReceived := p.expectedRent * (m : ℚ)
  let propertyAppreciation :=
    p.propertyWorth * (1 + (3/100) * ((m : ℚ) / 12)) - p.propertyWorth
  ⟨m, jsMulFin (jsDiv (totalRentReceived + propertyAppreciation) (metricsEquity p)) 100⟩

/-- The `roiSchedule` loop of `calculateInvestmentMetrics` with IEEE
special-value semantics (months 0..480). -/
def roiScheduleJS (p : MetricsParams) : List RoiPointJS :=
  (List.range 481).map (roiPointJS p)

/-- `roi10Years = roiSchedule[120]?.roi || 0` with IEEE special values
(`NaN || 0` is `0`, `Infinity || 0` is `Infinity`). -/
def metricsRoi10YearsJS (p : MetricsParams) : JSNum :=
  match (roiScheduleJS p).get? 120 with
  | some x => jsOr x.roi (.num 0)
  | none => .num 0

/-- The verification procedure claim C5 prescribes: annualise the solved
rent, feed it through the loss-only Tax Model (`calculateGermanTaxSavings`
with the optimizer's first-year interest 12 × 300000 × 4/100/12 = 12000), and
form the monthly cash flow rent − payment − tax, where the tax cash effect is
−taxSavings/12 (a saving reduces the outflow). -/
def c5LossOnlyResidual : ℚ :=
  let res := calculateOptimalScenario 300000 4 200000 1200 40 true 0 2
  let snap := calculateGermanTaxSavings 200000 (12 * (300000 * (4/100/12)))
    1200 40 (12 * res.minRent)
  res.minRent - res.monthlyPayment - (-snap.taxSavings / 12)

/-- A fully debt-financed purchase for claim C10: equity
= 100000 + 10000 − 110000 = 0. -/
def roiDemoParams : MetricsParams :=
  ⟨100000, 10000, 500, 110000, 400, 2, false, 0, 0, 0, 0, 2024, 100000⟩

/-- Parameter set exhibiting the break-even divergence of claim C1: equity
1000, rent 500, no tax, empty amortization schedule (treated as paid off),
so the liquid cumulative starts at −1000 + 500 and first reaches 0 at month 1,
while the total cumulative (liquid + 100000 of property equity) is already
non-negative at month 0. -/
def breakEvenDemoParams : MetricsParams :=
  ⟨100000, 0, 500, 99000, 0, 0, false, 0, 0, 0, 0, 2024, 100000⟩

/-- The four beginning-of-year snapshot fields of a bucket, as a `RunState`. -/
def startStateOf (b : YearBucket) : RunState :=
  ⟨b.balanceStart, b.cumulativeStart, b.cumulativeIlliquidStart,
    b.totalCumulativeStart⟩

/-- A one-entry amortization schedule used to instantiate the extender
claim. -/
def demoAmortEntry : AmortEntry := ⟨0, 10, 1, 9, 91, 1⟩

/-- Singleton schedule wrapping `demoAmortEntry`. -/
def demoAmort : List AmortEntry := [demoAmortEntry]

/-- Initial values for the aggregation carry-forward scenario: balance 90000
before the simulation starts. -/
def ivDemo : InitialValues := ⟨some 90000, some 0, some 10000, some 0⟩

/-- First monthly record of the carry-forward scenario: month 0 (January of
the start year), balance 89900 at month end. -/
def mdDemo0 : MonthData :=
  ⟨0, none, none, none, none, none, none, none,
    some 89900, none, some (-100), some 10100, some 10000⟩

/-- Second monthly record of the carry-forward scenario: month 12 (January of
the following calendar year), balance 89800 at month end. -/
def mdDemo12 : MonthData :=
  ⟨12, none, none, none, none, none, none, none,
    some 89800, none, some (-200), some 10200, some 10000⟩

/-- The two-record series crossing a calendar-year boundary. -/
def recsDemo : List MonthData := [mdDemo0, mdDemo12]

/-! ### Claim C8: the loss-only tax rule of the Tax Model -/

/-- C8: `computeTaxSnapshot` (= `calculateGermanTaxSavings`) returns a zero
tax effect whenever rental income is at least the total deductible
(`buildingValue × 0.02 + interest + expenses`), and
`(totalDeductible - income) × taxRate/100` otherwise; on the concrete input
(400000, 15000, 3000, 42, 18000) it returns depreciation 8000, totalDeductible
26000, netResult −8000 and taxEffect 3360. -/
theorem germanTax_lossOnly (b i e t inc : ℚ) :
    (b * (2/100) + i + e ≤ inc →
      (calculateGermanTaxSavings b i e t inc).taxSavings = 0) ∧
    (inc < b * (2/100) + i + e →
      (calculateGermanTaxSavings b i e t inc).taxSavings =
        (b * (2/100) + i + e - inc) * (t / 100)) ∧
    calculateGermanTaxSavings 400000 15000 3000 42 18000 =
      ⟨8000, 15000, 3000, 26000, 18000, -8000, 3360⟩ := by
  refine ⟨fun h => ?_, fun h => ?_, ?_⟩
  · simp only [calculateGermanTaxSavings]
    rw [if_neg (by push_neg; linarith)]
  · simp only [calculateGermanTaxSavings]
    rw [if_pos (by linarith), abs_of_neg (by linarith)]
    ring
  · simp only [calculateGermanTaxSavings, TaxResult.mk.injEq]
    norm_num

/-- Witness for C8: both branches of `germanTax_lossOnly` discharged at
concrete inputs (a profit case with income 30000 and the documented loss
case with income 18000). -/
theorem germanTax_lossOnly_witness :
    ((400000:ℚ) * (2/100) + 15000 + 3000 ≤ 30000 ∧
      (calculateGermanTaxSavings 400000 15000 3000 42 30000).taxSavings = 0) ∧
    ((18000:ℚ) < 400000 * (2/100) + 15000 + 3000 ∧
      (calculateGermanTaxSavings 400000 15000 3000 42 18000).taxSavings =
        (400000 * (2/100) + 15000 + 3000 - 18000) * (42 / 100)) :=
  ⟨⟨by norm_num, (germanTax_lossOnly 400000 15000 3000 42 30000).1 (by norm_num)⟩,
   ⟨by norm_num, (germanTax_lossOnly 400000 15000 3000 42 18000).2.1 (by norm_num)⟩⟩

/-! ### Claim C5: the optimizer's solved rent and its verification -/

/-- The optimizer result for the documented scenario
(debt 300000, rate 4, building 200000, expenses 1200, tax 40, applyTax):
payment 1500 and minRent 1544.44 = 38611/25. -/
theorem optimalScenario_300k :
    calculateOptimalScenario 300000 4 200000 1200 40 true 0 2 =
      ⟨1500, 38611/25⟩ := by
  norm_num [calculateOptimalScenario, jsToFixed2, OptimalResult.mk.injEq, round_eq]

/-- C5 counterexample: verifying the solved minimum rent through
`computeTaxSnapshot`'s loss-only rule leaves a residual monthly cash flow of
1111/25 = 44.44, not within the claimed 0.05 of zero: the solved rent lies in
the profit region, where the loss-only rule returns zero tax while the
optimizer's derivation assumed the signed tax term throughout. -/
theorem optimal_lossOnly_check_fails :
    c5LossOnlyResidual = 1111/25 ∧ ¬(|c5LossOnlyResidual| ≤ 5/100) := by
  have h : c5LossOnlyResidual = 1111/25 := by
    simp only [c5LossOnlyResidual, optimalScenario_300k]
    norm_num [calculateGermanTaxSavings]
  refine ⟨h, ?_⟩
  rw [h, abs_of_pos (by norm_num)]
  norm_num

/-- C5 (amended): the optimizer returns monthlyPayment 1500 and minRent
1544.44 (within 0.01 of the claimed 1544.45), and verifying that rent through
the *signed* tax formula `tax = (rent − deductibles) × rate/100` actually used
by the cash-flow model (deductibles = first-month interest 1000 + monthly AfA
+ monthly expenses) yields a net monthly cash flow within 0.05 of zero. -/
theorem optimal_scenario_amended :
    (calculateOptimalScenario 300000 4 200000 1200 40 true 0 2).monthlyPayment = 1500 ∧
    |(calculateOptimalScenario 300000 4 200000 1200 40 true 0 2).minRent - 154445/100| ≤ 1/100 ∧
    |(calculateOptimalScenario 300000 4 200000 1200 40 true 0 2).minRent - 1500 -
      ((calculateOptimalScenario 300000 4 200000 1200 40 true 0 2).minRent -
        (1000 + 200000 * (2/100) / 12 + 1200/12)) * (40/100)| ≤ 5/100 := by
  rw [optimalScenario_300k]
  refine ⟨rfl, ?_, ?_⟩
  · rw [show (38611:ℚ)/25 - 154445/100 = -(1/100) by norm_num, abs_neg,
      abs_of_pos (by norm_num)]
  · rw [show (38611:ℚ)/25 - 1500 - ((38611:ℚ)/25 -
      (1000 + 200000 * (2/100) / 12 + 1200/12)) * (40/100) = -(1/375) by norm_num,
      abs_neg, abs_of_pos (by norm_num)]
    norm_num

/-! ### Claim C10: unguarded division by zero equity in the ROI schedule -/

/-- Dividing any finite value by zero and scaling by 100 yields a non-finite
IEEE value (NaN for 0/0, a signed infinity otherwise). -/
theorem jsDiv_zero_mul100_nonfinite (a : ℚ) :
    (jsMulFin (jsDiv a 0) 100).isFinite = false := by
  simp only [jsDiv, if_pos rfl]
  split_ifs <;> simp [jsMulFin, JSNum.isFinite]

/-- C10: with zero equity, every entry of the ROI schedule is non-finite
(Infinity or NaN) and so is `roi10Years`; the computation is total (the
embedding is a function of its inputs), so no error is raised. -/
theorem roiSchedule_zero_equity_nonfinite :
    metricsEquity roiDemoParams = 0 ∧
    (∀ m : ℕ, m ≤ 480 →
      ∃ x : RoiPointJS, (roiScheduleJS roiDemoParams).get? m = some x ∧
        x.roi.isFinite = false) ∧
    (metricsRoi10YearsJS roiDemoParams).isFinite = false := by
  have heq : metricsEquity roiDemoParams = 0 := by
    norm_num [metricsEquity, roiDemoParams]
  have hget : ∀ m : ℕ, m < 481 →
      (roiScheduleJS roiDemoParams).get? m = some (roiPointJS roiDemoParams m) := by
    intro m hm
    rw [roiScheduleJS, List.get?_eq_getElem?, List.getElem?_map,
      List.getElem?_range hm]
    rfl
  have hroi : ∀ m : ℕ, (roiPointJS roiDemoParams m).roi.isFinite = false := by
    intro m
    simp only [roiPointJS, heq]
    exact jsDiv_zero_mul100_nonfinite _
  refine ⟨heq, fun m hm => ⟨_, hget m (by omega), hroi m⟩, ?_⟩
  have h120 : (roiPointJS roiDemoParams 120).roi = JSNum.inf := by
    simp only [roiPointJS, heq]
    rw [show (roiDemoParams.expectedRent * ((120:ℕ):ℚ) +
        (roiDemoParams.propertyWorth * (1 + (3/100) * (((120:ℕ):ℚ) / 12)) -
          roiDemoParams.propertyWorth)) = 90000 by norm_num [roiDemoParams]]
    rw [jsDiv, if_pos rfl, if_neg (by norm_num), if_pos (by norm_num)]
    rw [jsMulFin, if_pos (by norm_num)]
  rw [metricsRoi10YearsJS, hget 120 (by norm_num)]
  show (jsOr (roiPointJS roiDemoParams 120).roi (JSNum.num 0)).isFinite = false
  rw [h120]
  rfl

/-- Witness for C10: the ∀-part of `roiSchedule_zero_equity_nonfinite`
discharged at month 0. -/
theorem roiSchedule_zero_equity_nonfinite_witness :
    ∃ x : RoiPointJS, (roiScheduleJS roiDemoParams).get? 0 = some x ∧
      x.roi.isFinite = false :=
  roiSchedule_zero_equity_nonfinite.2.1 0 (by norm_num)

/-! ### Claim C9: getMonthsInYear always returns between 1 and 12 -/

/-- The downward scan never returns more than the larger of its two
arguments. -/
theorem firstMonthScan_le (sY sM cY : ℕ) :
    ∀ k acc : ℕ, firstMonthScan sY sM cY k acc ≤ max k acc := by
  intro k
  induction k with
  | zero =>
    intro acc
    simp only [firstMonthScan]
    split_ifs
    · exact Nat.zero_le _
    · exact le_max_right _ _
  | succ k ih =>
    intro acc
    simp only [firstMonthScan]
    split_ifs with h
    · exact le_trans (ih (k + 1))
        (max_le (le_trans (Nat.le_succ k) (le_max_left _ _)) (le_max_left _ _))
    · exact le_max_right _ _

/-- Every value the downward scan returns has the sought calendar year,
provided the accumulator does. -/
theorem firstMonthScan_year (sY sM cY : ℕ) :
    ∀ k acc : ℕ, dateYear sY sM acc = cY →
      dateYear sY sM (firstMonthScan sY sM cY k acc) = cY := by
  intro k
  induction k with
  | zero =>
    intro acc hacc
    simp only [firstMonthScan]
    split_ifs with h
    · exact h
    · exact hacc
  | succ k ih =>
    intro acc hacc
    simp only [firstMonthScan]
    split_ifs with h
    · exact ih (k + 1) h
    · exact hacc

/-- The upward scan never returns less than its accumulator, when the
accumulator is at most the scan position. -/
theorem lastMonthScan_ge (sY sM cY : ℕ) :
    ∀ (fuel k acc : ℕ), acc ≤ k → acc ≤ lastMonthScan sY sM cY fuel k acc := by
  intro fuel
  induction fuel with
  | zero =>
    intro k acc _
    simp only [lastMonthScan]
    exact le_refl acc
  | succ fuel ih =>
    intro k acc h
    simp only [lastMonthScan]
    split_ifs with hy
    · exact le_trans h (ih (k + 1) k (Nat.le_succ k))
    · exact le_refl acc

/-- Every value the upward scan returns has the sought calendar year,
provided the accumulator does. -/
theorem lastMonthScan_year (sY sM cY : ℕ) :
    ∀ (fuel k acc : ℕ), dateYear sY sM acc = cY →
      dateYear sY sM (lastMonthScan sY sM cY fuel k acc) = cY := by
  intro fuel
  induction fuel with
  | zero =>
    intro k acc hacc
    simpa only [lastMonthScan] using hacc
  | succ fuel ih =>
    intro k acc hacc
    simp only [lastMonthScan]
    split_ifs with hy
    · exact ih (k + 1) k hy
    · exact hacc

/-- C9: for every month index within the horizon, start month 0-11 and any
start year, `getMonthsInYear` returns an integer between 1 and 12. -/
theorem getMonthsInYear_bounds (month startMonth startYear maxMonths : ℕ)
    (hm : month ≤ maxMonths) (hsm : startMonth ≤ 11) :
    1 ≤ getMonthsInYear month startMonth startYear maxMonths ∧
    getMonthsInYear month startMonth startYear maxMonths ≤ 12 := by
  have key : ∀ fm lm : ℕ, fm ≤ month → month ≤ lm →
      dateYear startYear startMonth fm = dateYear startYear startMonth month →
      dateYear startYear startMonth lm = dateYear startYear startMonth month →
      1 ≤ ((lm : ℤ) - (fm : ℤ) + 1) ∧ ((lm : ℤ) - (fm : ℤ) + 1) ≤ 12 := by
    intro fm lm hfm hlm h3 h4
    have h34 : dateYear startYear startMonth fm = dateYear startYear startMonth lm :=
      h3.trans h4.symm
    unfold dateYear at h34
    have hdiv : (startMonth + fm) / 12 = (startMonth + lm) / 12 := by omega
    have e1 := Nat.div_add_mod (startMonth + fm) 12
    have e2 := Nat.div_add_mod (startMonth + lm) 12
    have m1 : (startMonth + fm) % 12 < 12 := Nat.mod_lt _ (by norm_num)
    have m2 : (startMonth + lm) % 12 < 12 := Nat.mod_lt _ (by norm_num)
    omega
  have h1 : firstMonthScan startYear startMonth
      (dateYear startYear startMonth month) month month ≤ month := by
    have := firstMonthScan_le startYear startMonth
      (dateYear startYear startMonth month) month month
    simpa using this
  have h2 := lastMonthScan_ge startYear startMonth
    (dateYear startYear startMonth month) (maxMonths + 1 - month) month month
    (le_refl month)
  have h3 := firstMonthScan_year startYear startMonth
    (dateYear startYear startMonth month) month month rfl
  have h4 := lastMonthScan_year startYear startMonth
    (dateYear startYear startMonth month) (maxMonths + 1 - month) month month rfl
  exact key _ _ h1 h2 h3 h4

/-- Witness for C9: the bounds discharged at month 5 of a January 2024 start
with the default 480-month horizon. -/
theorem getMonthsInYear_bounds_witness :
    1 ≤ getMonthsInYear 5 0 2024 480 ∧ getMonthsInYear 5 0 2024 480 ≤ 12 :=
  getMonthsInYear_bounds 5 0 2024 480 (by norm_num) (by norm_num)

/-! ### Claims C6/C7: amortization loop lemmas -/

/-- The capped-and-clamped principal share is non-negative on a non-negative
balance. -/
theorem principalOf_nonneg (M r b : ℚ) (hb : 0 ≤ b) : 0 ≤ principalOf M r b := by
  simp only [principalOf]
  split_ifs <;> first | exact hb | exact le_refl 0 | linarith

/-- The capped-and-clamped principal share never exceeds the balance. -/
theorem principalOf_le (M r b : ℚ) (hb : 0 ≤ b) : principalOf M r b ≤ b := by
  simp only [principalOf]
  split_ifs <;> first | exact le_refl b | exact hb | linarith

/-- The snapped balance is non-negative. -/
theorem snapBalance_nonneg (b : ℚ) : 0 ≤ snapBalance b := by
  simp only [snapBalance]
  split_ifs with h
  · exact le_refl 0
  · linarith [not_lt.mp h]

/-- The loop never produces more entries than it has fuel. -/
theorem amortLoop_length_le (M r : ℚ) :
    ∀ (fuel : ℕ) (b ti : ℚ) (mo : ℕ), (amortLoop M r fuel b ti mo).length ≤ fuel := by
  intro fuel
  induction fuel with
  | zero => intro b ti mo; simp [amortLoop]
  | succ fuel ih =>
    intro b ti mo
    simp only [amortLoop]
    split_ifs with h
    · simpa using ih _ _ _
    · simp

/-- With fuel left and a positive balance the loop emits at least one entry. -/
theorem amortLoop_ne_nil (M r : ℚ) (fuel : ℕ) (b ti : ℚ) (mo : ℕ)
    (hb : 0 < b) (hf : fuel ≠ 0) : amortLoop M r fuel b ti mo ≠ [] := by
  cases fuel with
  | zero => exact absurd rfl hf
  | succ fuel => simp [amortLoop, hb]

/-- No entry ever carries a negative principal payment. -/
theorem amortLoop_principal_nonneg (M r : ℚ) :
    ∀ (fuel : ℕ) (b ti : ℚ) (mo : ℕ),
      ∀ e ∈ amortLoop M r fuel b ti mo, 0 ≤ e.principalPayment := by
  intro fuel
  induction fuel with
  | zero => intro b ti mo e he; simp [amortLoop] at he
  | succ fuel ih =>
    intro b ti mo e he
    simp only [amortLoop] at he
    split_ifs at he with h
    · rcases List.mem_cons.mp he with rfl | htail
      · exact principalOf_nonneg M r b (le_of_lt h)
      · exact ih _ _ _ e htail
    · simp at he

/-- Every entry's recorded payment is its interest share plus its principal
share. -/
theorem amortLoop_payment_decomp (M r : ℚ) :
    ∀ (fuel : ℕ) (b ti : ℚ) (mo : ℕ),
      ∀ e ∈ amortLoop M r fuel b ti mo,
        e.payment = e.interestPayment + e.principalPayment := by
  intro fuel
  induction fuel with
  | zero => intro b ti mo e he; simp [amortLoop] at he
  | succ fuel ih =>
    intro b ti mo e he
    simp only [amortLoop] at he
    split_ifs at he with h
    · rcases List.mem_cons.mp he with rfl | htail
      · exact add_comm _ _
      · exact ih _ _ _ e htail
    · simp at he

/-- When the payment is at most the interest due on the balance and the
balance is at least the snap tolerance, the loop state is a fixed point and
the loop runs its full fuel. -/
theorem amortLoop_stuck (M r b : ℚ) (hM : M ≤ b * r) (hb : 1/100 ≤ b) :
    ∀ (fuel : ℕ) (ti : ℚ) (mo : ℕ), (amortLoop M r fuel b ti mo).length = fuel := by
  have hb0 : 0 < b := lt_of_lt_of_le (by norm_num) hb
  have hpp : principalOf M r b = 0 := by
    have hin : (if M - b * r ≤ 0 then (0:ℚ) else M - b * r) = 0 :=
      if_pos (by linarith)
    simp only [principalOf, hin]
    rw [if_neg (not_lt.mpr (le_of_lt hb0))]
  have hsnap : snapBalance (b - principalOf M r b) = b := by
    rw [hpp, sub_zero, snapBalance, if_neg (not_lt.mpr hb)]
  intro fuel
  induction fuel with
  | zero => intro ti mo; simp [amortLoop]
  | succ fuel ih =>
    intro ti mo
    simp only [amortLoop, if_pos hb0, hsnap, List.length_cons]
    rw [ih]

/-- Monotone cumulative interest: with a non-negative rate and balance, every
emitted entry's `totalInterest` is at least the accumulator, and consecutive
entries are non-decreasing in `totalInterest`. -/
theorem amortLoop_totalInterest_mono (M r : ℚ) (hr : 0 ≤ r) :
    ∀ (fuel : ℕ) (b ti : ℚ) (mo : ℕ), 0 ≤ b →
      (∀ e ∈ amortLoop M r fuel b ti mo, ti ≤ e.totalInterest) ∧
      List.Chain' (fun a c => a.totalInterest ≤ c.totalInterest)
        (amortLoop M r fuel b ti mo) := by
  intro fuel
  induction fuel with
  | zero => intro b ti mo _; constructor
            · intro e he; simp [amortLoop] at he
            · simp [amortLoop]
  | succ fuel ih =>
    intro b ti mo hb
    by_cases h : 0 < b
    · have hstep : 0 ≤ b * r := mul_nonneg hb hr
      obtain ⟨ihmem, ihchain⟩ := ih (snapBalance (b - principalOf M r b))
        (ti + b * r) (mo + 1) (snapBalance_nonneg _)
      simp only [amortLoop, if_pos h]
      constructor
      · intro e he
        rcases List.mem_cons.mp he with rfl | htail
        · simpa using hstep
        · exact le_trans (by linarith) (ihmem e htail)
      · refine List.chain'_cons'.mpr ⟨fun y hy => ?_, ihchain⟩
        exact le_trans (le_refl _)
          (ihmem y (List.mem_of_mem_head? hy))
    · simp only [amortLoop, if_neg h]
      constructor
      · intro e he; simp at he
      · simp

/-- If the loop stops before exhausting its fuel, the final emitted entry's
recorded balance lies in [0, 0.01). -/
theorem amortLoop_early_exit (M r : ℚ) :
    ∀ (fuel : ℕ) (b ti : ℚ) (mo : ℕ),
      (amortLoop M r fuel b ti mo).length < fuel →
      ∀ e, (amortLoop M r fuel b ti mo).getLast? = some e →
        0 ≤ e.balance ∧ e.balance < 1/100 := by
  intro fuel
  induction fuel with
  | zero => intro b ti mo hlen; omega
  | succ fuel ih =>
    intro b ti mo hlen e hlast
    by_cases hb : 0 < b
    · rw [amortLoop, if_pos hb] at hlen hlast
      rcases hrest : amortLoop M r fuel
          (snapBalance (b - principalOf M r b)) (ti + b * r) (mo + 1) with _ | ⟨hd, tl⟩
      · rw [hrest] at hlast
        simp only [List.getLast?_singleton, Option.some.injEq] at hlast
        subst hlast
        have hfuel : fuel ≠ 0 := by
          rw [hrest] at hlen
          simp at hlen
          omega
        have hble : ¬ 0 < snapBalance (b - principalOf M r b) := by
          intro hpos
          exact amortLoop_ne_nil M r fuel _ _ _ hpos hfuel hrest
        have hb1 : 0 ≤ b - principalOf M r b := by
          have := principalOf_le M r b (le_of_lt hb)
          linarith
        constructor
        · exact hb1
        · by_contra hcon
          push_neg at hcon
          rw [snapBalance, if_neg (not_lt.mpr hcon)] at hble
          exact hble (lt_of_lt_of_le (by norm_num) hcon)
      · rw [hrest] at hlast
        rw [List.getLast?_cons_cons] at hlast
        have hlen2 : (amortLoop M r fuel
            (snapBalance (b - principalOf M r b)) (ti + b * r) (mo + 1)).length < fuel := by
          rw [hrest] at hlen ⊢
          simp only [List.length_cons] at hlen ⊢
          omega
        have := ih (snapBalance (b - principalOf M r b)) (ti + b * r) (mo + 1) hlen2 e
        rw [hrest] at this
        exact this hlast
    · rw [amortLoop, if_neg hb] at hlast
      simp at hlast

/-- C7: for every input the amortization loop terminates with at most 1200
entries and no entry has a negative principal payment; and whenever the
principal exceeds the 0.01 snap tolerance while the payment is at or below
the interest-only amount, the schedule has exactly 1200 entries, so
non-convergence is observable as `schedule.length = 1200` rather than as
non-termination or an exception. -/
theorem amortization_ceiling_bounds (P M R : ℚ) :
    (calculateAmortization P M R).length ≤ 1200 ∧
    (∀ e ∈ calculateAmortization P M R, 0 ≤ e.principalPayment) ∧
    (1/100 < P → M ≤ P * R / 100 / 12 →
      (calculateAmortization P M R).length = 1200) := by
  refine ⟨amortLoop_length_le M (R / 100 / 12) 1200 P 0 0,
    fun e he => amortLoop_principal_nonneg M (R / 100 / 12) 1200 P 0 0 e he,
    fun h1 h2 => ?_⟩
  exact amortLoop_stuck M (R / 100 / 12) P
    (by rw [show P * (R / 100 / 12) = P * R / 100 / 12 by ring]; exact h2)
    (le_of_lt h1) 1200 0 0

/-- Witness for C7: the exact-ceiling part discharged at principal 1,
payment 0, rate 0. -/
theorem amortization_ceiling_bounds_witness :
    (1:ℚ)/100 < 1 ∧ (0:ℚ) ≤ 1 * 0 / 100 / 12 ∧
    (calculateAmortization 1 0 0).length = 1200 :=
  ⟨by norm_num, by norm_num,
    (amortization_ceiling_bounds 1 0 0).2.2 (by norm_num) (by norm_num)⟩

/-- With a zero monthly rate and a balance large enough never to be paid off
within the fuel, every iteration subtracts exactly the payment: the loop runs
its full fuel and the last entry records balance `b − fuel·M`. -/
theorem amortLoop_zero_rate (M : ℚ) (hM : 0 < M) :
    ∀ (fuel : ℕ) (b ti : ℚ) (mo : ℕ), (fuel : ℚ) * M + 1/100 ≤ b →
      (amortLoop M 0 fuel b ti mo).length = fuel ∧
      (fuel ≠ 0 → (amortLoop M 0 fuel b ti mo).getLast? =
        some ⟨((mo + fuel : ℕ) : ℤ), M, 0, M, b - (fuel : ℚ) * M, ti⟩) := by
  intro fuel
  induction fuel with
  | zero =>
    intro b ti mo _
    exact ⟨rfl, fun h => absurd rfl h⟩
  | succ fuel ih =>
    intro b ti mo hb
    have hfuel0 : (0:ℚ) ≤ (fuel : ℚ) := Nat.cast_nonneg fuel
    have hcast : ((fuel + 1 : ℕ) : ℚ) = (fuel : ℚ) + 1 := by push_cast; ring
    rw [hcast] at hb
    have hMle : M < b := by nlinarith
    have hb0 : 0 < b := lt_trans hM hMle
    have hpp : principalOf M 0 b = M := by
      simp only [principalOf, mul_zero, sub_zero]
      rw [if_neg (not_le.mpr hM), if_neg (not_lt.mpr (le_of_lt hMle))]
    have hsnap : snapBalance (b - principalOf M 0 b) = b - M := by
      rw [hpp, snapBalance, if_neg (not_lt.mpr (by nlinarith))]
    have hstep : (fuel : ℚ) * M + 1/100 ≤ b - M := by nlinarith
    obtain ⟨ihlen, ihlast⟩ := ih (b - M) ti (mo + 1) hstep
    constructor
    · simp only [amortLoop, if_pos hb0, hsnap, List.length_cons, mul_zero,
        add_zero, ihlen]
    · intro _
      simp only [amortLoop, if_pos hb0, hsnap, mul_zero, add_zero]
      by_cases hfz : fuel = 0
      · subst hfz
        have hnil : amortLoop M 0 0 (b - M) ti (mo + 1) = [] := rfl
        rw [hnil, List.getLast?_singleton]
        congr 1
        rw [hpp]
        congr 1
        push_cast
        ring
      · have hne : amortLoop M 0 fuel (b - M) ti (mo + 1) ≠ [] := by
          have hpos : 0 < b - M := by nlinarith
          exact amortLoop_ne_nil M 0 fuel (b - M) ti (mo + 1) hpos hfz
        obtain ⟨hd, tl, heq⟩ := List.exists_cons_of_ne_nil hne
        rw [heq, List.getLast?_cons_cons, ← heq, ihlast hfz]
        congr 1
        have hmo : ((mo + 1 + fuel : ℕ) : ℤ) = ((mo + (fuel + 1) : ℕ) : ℤ) := by
          push_cast; ring
        rw [hmo]
        congr 1
        push_cast
        ring

/-- C6 counterexample: principal 100000, payment 1, rate 0 satisfies the
claim's hypotheses (positive principal, payment strictly above the zero
interest-only amount, non-negative rate) yet the schedule hits the 1200-month
ceiling with a final recorded balance of 98800, nowhere near the claimed 0.01
of zero. -/
theorem amortization_slow_payoff_counterexample :
    (0:ℚ) < 100000 ∧ 100000 * (0:ℚ) / 100 / 12 < 1 ∧ (0:ℚ) ≤ 0 ∧
    (calculateAmortization 100000 1 0).length = 1200 ∧
    (calculateAmortization 100000 1 0).getLast? =
      some ⟨1200, 1, 0, 1, 98800, 0⟩ ∧
    ¬(|(98800:ℚ)| ≤ 1/100) := by
  have h0 : (0:ℚ)/100/12 = 0 := by norm_num
  have hrun := amortLoop_zero_rate 1 (by norm_num) 1200 100000 0 0
    (by push_cast; norm_num)
  have hcalc : calculateAmortization 100000 1 0 = amortLoop 1 0 1200 100000 0 0 := by
    rw [calculateAmortization, h0]
  refine ⟨by norm_num, by norm_num, le_refl 0, ?_, ?_, ?_⟩
  · rw [hcalc]; exact hrun.1
  · rw [hcalc, hrun.2 (by norm_num)]
    norm_num
  · rw [abs_of_pos (by norm_num)]
    norm_num

/-- C6 (amended): for positive principal, payment strictly above the
interest-only amount and non-negative rate, the schedule is non-empty, has at
most 1200 entries, its cumulative interest is non-decreasing from each entry
to the next, and — provided the loop pays off before the 1200-month ceiling —
the final entry's recorded balance lies within 0.01 of zero (the loop
variable itself is snapped to exactly 0). -/
theorem amortization_payoff_amended (P M R : ℚ) (hP : 0 < P)
    (hM : P * R / 100 / 12 < M) (hR : 0 ≤ R) :
    calculateAmortization P M R ≠ [] ∧
    (calculateAmortization P M R).length ≤ 1200 ∧
    List.Chain' (fun a c => a.totalInterest ≤ c.totalInterest)
      (calculateAmortization P M R) ∧
    ((calculateAmortization P M R).length < 1200 →
      ∀ e, (calculateAmortization P M R).getLast? = some e →
        0 ≤ e.balance ∧ e.balance < 1/100) := by
  refine ⟨amortLoop_ne_nil M (R / 100 / 12) 1200 P 0 0 hP (by norm_num),
    amortLoop_length_le M (R / 100 / 12) 1200 P 0 0,
    (amortLoop_totalInterest_mono M (R / 100 / 12)
      (by positivity) 1200 P 0 0 (le_of_lt hP)).2,
    fun hlen e he =>
      amortLoop_early_exit M (R / 100 / 12) 1200 P 0 0 hlen e he⟩

/-- Witness for C6 (amended): discharged at principal 100, payment 60,
rate 0. -/
theorem amortization_payoff_amended_witness :
    (0:ℚ) < 100 ∧ (100:ℚ) * 0 / 100 / 12 < 60 ∧ (0:ℚ) ≤ 0 ∧
    (calculateAmortization 100 60 0 ≠ [] ∧
      (calculateAmortization 100 60 0).length ≤ 1200 ∧
      List.Chain' (fun a c => a.totalInterest ≤ c.totalInterest)
        (calculateAmortization 100 60 0) ∧
      ((calculateAmortization 100 60 0).length < 1200 →
        ∀ e, (calculateAmortization 100 60 0).getLast? = some e →
          0 ≤ e.balance ∧ e.balance < 1/100)) :=
  ⟨by norm_num, by norm_num, le_refl 0,
    amortization_payoff_amended 100 60 0 (by norm_num) (by norm_num) (by norm_num)⟩

/-! ### Claim C2: the accumulator uses the amortization entry's own payment -/

/-- C2: for every month within the 481-month horizon, the monthly cash-flow
record's `mortgagePayment` and `balance` are looked up from the amortization
entry at that index when it exists (the entry's own recorded payment, which
by the loop's construction equals its interest share plus its principal
share) and are 0 when the index is at or beyond the schedule length (loan
treated as paid off). -/
theorem monthlyRecord_uses_entry_payment (p : MetricsParams)
    (amort : List AmortEntry) (fn : ℕ → ℕ → ℕ → ℤ) (m : ℕ) (hm : m ≤ 480) :
    ((monthlyCashFlowSchedule p amort fn).get? m).map
        (fun r => (r.mortgagePayment, r.balance)) =
      some (entryPayment amort m, entryBalance amort m) ∧
    (∀ h : m < amort.length,
      entryPayment amort m = (amort.get ⟨m, h⟩).payment ∧
      entryBalance amort m = (amort.get ⟨m, h⟩).balance) ∧
    (amort.length ≤ m → entryPayment amort m = 0 ∧ entryBalance amort m = 0) ∧
    (∀ P M R : ℚ, ∀ e ∈ calculateAmortization P M R,
      e.payment = e.interestPayment + e.principalPayment) := by
  refine ⟨?_, fun h => ?_, fun h => ?_, ?_⟩
  · rw [monthlyCashFlowSchedule, List.get?_eq_getElem?,
      List.getElem?_map, List.getElem?_range (by omega : m < 481)]
    simp [monthlyRecord]
  · constructor
    · rw [entryPayment, List.get?_eq_getElem?, List.getElem?_eq_getElem h,
        List.get_eq_getElem]
    · rw [entryBalance, List.get?_eq_getElem?, List.getElem?_eq_getElem h,
        List.get_eq_getElem]
  · constructor
    · rw [entryPayment, List.get?_eq_getElem?, List.getElem?_eq_none h]
    · rw [entryBalance, List.get?_eq_getElem?, List.getElem?_eq_none h]
  · exact fun P M R e he =>
      amortLoop_payment_decomp M (R / 100 / 12) 1200 P 0 0 e he

/-- Witness for C2: the record lookup discharged at month 0 of the demo
parameter set with an empty schedule. -/
theorem monthlyRecord_uses_entry_payment_witness :
    ((monthlyCashFlowSchedule breakEvenDemoParams [] (fun _ _ _ => 1)).get? 0).map
        (fun r => (r.mortgagePayment, r.balance)) =
      some (entryPayment [] 0, entryBalance [] 0) :=
  (monthlyRecord_uses_entry_payment breakEvenDemoParams [] (fun _ _ _ => 1) 0
    (by norm_num)).1

/-! ### Claim C3: the extender pads contiguously from the last month number -/

/-- C3: on a non-empty schedule and a target at least the last entry's own
month number, the extender returns the original schedule followed by padding
whose i-th entry has month number `last.month + 1 + i` (so the padded month
numbers are strictly increasing, gap-free, start right after the last
entry's own month field — not the array length — and run through the
target), zero interest and principal, balance 0, and the source's final
`totalInterest`. -/
theorem extendAmortization_pad_contiguous (amort : List AmortEntry)
    (h : amort ≠ []) (target : ℤ) (ht : (amort.getLast h).month ≤ target) :
    ∃ pad : List AmortEntry,
      extendAmortizationSchedule amort target = amort ++ pad ∧
      (pad.length : ℤ) = target - (amort.getLast h).month ∧
      ∀ i (hi : i < pad.length),
        pad.get ⟨i, hi⟩ =
          ⟨(amort.getLast h).month + 1 + (i : ℤ), 0, 0, 0, 0,
            (amort.getLast h).totalInterest⟩ := by
  refine ⟨(List.range ((target + 1 - ((amort.getLast h).month + 1)).toNat)).map
    (fun i : ℕ => ⟨(amort.getLast h).month + 1 + (i : ℤ), 0, 0, 0, 0,
      (amort.getLast h).totalInterest⟩), ?_, ?_, ?_⟩
  · simp only [extendAmortizationSchedule, List.getLast?_eq_getLast amort h]
  · rw [List.length_map, List.length_range]
    rw [Int.toNat_of_nonneg (by omega)]
    ring
  · intro i hi
    rw [List.get_eq_getElem, List.getElem_map, List.getElem_range]

/-- Witness for C3: the extender claim discharged on the singleton schedule
with last month number 0 and target 3. -/
theorem extendAmortization_pad_contiguous_witness :
    ∃ pad : List AmortEntry,
      extendAmortizationSchedule demoAmort 3 = demoAmort ++ pad ∧
      (pad.length : ℤ) = 3 - (demoAmort.getLast (by simp [demoAmort])).month ∧
      ∀ i (hi : i < pad.length),
        pad.get ⟨i, hi⟩ =
          ⟨(demoAmort.getLast (by simp [demoAmort])).month + 1 + (i : ℤ),
            0, 0, 0, 0,
            (demoAmort.getLast (by simp [demoAmort])).totalInterest⟩ :=
  extendAmortization_pad_contiguous demoAmort (by simp [demoAmort]) 3
    (by norm_num [demoAmort, demoAmortEntry, List.getLast_singleton])

/-! ### Claim C1: break-even is detected on the liquid cumulative, not the
total cumulative -/

/-- C1 (code bug exhibit): on `breakEvenDemoParams` with an empty schedule
the total cumulative is already non-negative at month 0 (first index 0), yet
`calculateInvestmentMetrics` reports breakEvenYears = 1/12 because the code's
`findIndex` scans `item.cumulative` (the liquid cumulative, first
non-negative at month 1) — so the reported break-even is not the first month
at which the total cumulative position is ≥ 0, contradicting the claimed
`breakEvenYears = (first total index)/12 = 0`. -/
theorem breakEven_liquid_not_total :
    metricsBreakEvenYears breakEvenDemoParams [] = 1/12 ∧
    (cashFlowSchedule breakEvenDemoParams []).findIdx?
      (fun item => 0 ≤ item.totalCumulative) = some 0 ∧
    (1/12 : ℚ) ≠ ((0:ℕ) : ℚ)/12 := by
  have hpay : ∀ k : ℕ, entryPayment ([] : List AmortEntry) k = 0 := fun k => rfl
  have hbal : ∀ k : ℕ, entryBalance ([] : List AmortEntry) k = 0 := fun k => rfl
  have hnet : ∀ k : ℕ, metricsNetCashFlow breakEvenDemoParams [] k = 500 := by
    intro k
    rw [metricsNetCashFlow, hpay, metricsTaxOnRent]
    norm_num [breakEvenDemoParams]
  have hequity : metricsEquity breakEvenDemoParams = 1000 := by
    norm_num [metricsEquity, breakEvenDemoParams]
  have hc0 : metricsCumulative breakEvenDemoParams [] 0 = -500 := by
    rw [metricsCumulative, show List.range 1 = [0] from rfl]
    rw [List.foldl_cons, List.foldl_nil, hnet 0, hequity]
    norm_num
  have hc1 : metricsCumulative breakEvenDemoParams [] 1 = 0 := by
    rw [metricsCumulative, show List.range 2 = [0, 1] from rfl]
    rw [List.foldl_cons, List.foldl_cons, List.foldl_nil, hnet 0, hnet 1, hequity]
    norm_num
  have hil0 : metricsCumulativeIlliquid breakEvenDemoParams [] 0 = 100000 := by
    rw [metricsCumulativeIlliquid, hbal 0]
    norm_num [breakEvenDemoParams]
  have hlen : (cashFlowSchedule breakEvenDemoParams []).length = 481 := by
    rw [cashFlowSchedule, List.length_map, List.length_range]
  have hget : ∀ k : ℕ, ∀ hk : k < (cashFlowSchedule breakEvenDemoParams []).length,
      (cashFlowSchedule breakEvenDemoParams [])[k] =
        ⟨k, metricsCumulative breakEvenDemoParams [] k,
          metricsCumulativeIlliquid breakEvenDemoParams [] k,
          metricsTotalCumulative breakEvenDemoParams [] k⟩ := by
    intro k hk
    simp only [cashFlowSchedule, List.getElem_map, List.getElem_range]
  refine ⟨?_, ?_, by norm_num⟩
  · have hfind : (cashFlowSchedule breakEvenDemoParams []).findIdx?
        (fun item => 0 ≤ item.cumulative) = some 1 := by
      rw [List.findIdx?_eq_some_iff_getElem]
      refine ⟨by rw [hlen]; norm_num, ?_, ?_⟩
      · rw [hget 1 (by rw [hlen]; norm_num)]
        simp only [decide_eq_true_eq]
        rw [hc1]
      · intro j hj
        interval_cases j
        rw [hget 0 (by rw [hlen]; norm_num)]
        simp only [decide_eq_true_eq]
        rw [hc0]
        norm_num
    rw [metricsBreakEvenYears, breakEvenMonth, hfind]
    norm_num
  · rw [List.findIdx?_eq_some_iff_getElem]
    refine ⟨by rw [hlen]; norm_num, ?_, ?_⟩
    · rw [hget 0 (by rw [hlen]; norm_num)]
      simp only [decide_eq_true_eq]
      rw [metricsTotalCumulative, hc0, hil0]
      norm_num
    · intro j hj
      omega

/-! ### Claim C4: beginning-of-year snapshots carry the running state -/

/-- Folding a record into a bucket never touches its year. -/
theorem bucketAdd_year (b : YearBucket) (md : MonthData) :
    (bucketAdd b md).year = b.year := rfl

/-- Folding a record into a bucket never touches its beginning-of-year
snapshot fields. -/
theorem bucketAdd_start (b : YearBucket) (md : MonthData) :
    startStateOf (bucketAdd b md) = startStateOf b := rfl

/-- A fresh bucket carries the year it was created for. -/
theorem newBucket_year (iv : InitialValues) (ls : RunState) (y : ℕ)
    (md : MonthData) : (newBucket iv ls y md).year = y := rfl

/-- A fresh bucket's beginning-of-year snapshot is the caller-supplied
initial values when the creating record has month index 0, and the running
state otherwise. -/
theorem newBucket_start (iv : InitialValues) (ls : RunState) (y : ℕ)
    (md : MonthData) :
    startStateOf (newBucket iv ls y md) =
      if md.month = 0 then initRunState iv else ls := by
  simp only [newBucket, startStateOf, initRunState]
  split_ifs with h <;> rfl

/-- Each aggregation step updates the running state exactly by
`updateRunState`. -/
theorem aggStep_lastState (sM sY : ℕ) (iv : InitialValues) (st : AggState)
    (md : MonthData) :
    (aggStep sM sY iv st md).lastState = updateRunState st.lastState md := rfl

/-- The running state after folding a record list is the `updateRunState`
fold of that list. -/
theorem foldl_aggStep_lastState (sM sY : ℕ) (iv : InitialValues) :
    ∀ (l : List MonthData) (st : AggState),
      (l.foldl (aggStep sM sY iv) st).lastState =
        l.foldl updateRunState st.lastState := by
  intro l
  induction l with
  | nil => intro st; rfl
  | cons md t ih =>
    intro st
    rw [List.foldl_cons, List.foldl_cons, ih, aggStep_lastState]

/-- Once a bucket exists, further folding preserves its key, year and
beginning-of-year snapshot. -/
theorem mem_buckets_preserved (sM sY : ℕ) (iv : InitialValues) :
    ∀ (l : List MonthData) (st : AggState) (y : ℕ) (b : YearBucket),
      (y, b) ∈ st.buckets →
      ∃ c : YearBucket, (y, c) ∈ (l.foldl (aggStep sM sY iv) st).buckets ∧
        c.year = b.year ∧ startStateOf c = startStateOf b := by
  intro l
  induction l with
  | nil => intro st y b hb; exact ⟨b, hb, rfl, rfl⟩
  | cons md t ih =>
    intro st y b hb
    rw [List.foldl_cons]
    have hb0 : (y, b) ∈ (if st.buckets.any (fun p => p.1 = dateYear sY sM md.month)
        then st.buckets
        else st.buckets ++ [(dateYear sY sM md.month,
          newBucket iv st.lastState (dateYear sY sM md.month) md)]) := by
      split_ifs
      · exact hb
      · exact List.mem_append_left _ hb
    have himg := List.mem_map_of_mem
      (fun p : ℕ × YearBucket => if p.1 = dateYear sY sM md.month
        then (p.1, bucketAdd p.2 md) else p) hb0
    simp only at himg
    by_cases hy : y = dateYear sY sM md.month
    · rw [if_pos hy] at himg
      obtain ⟨c, hc, hcy, hcs⟩ := ih (aggStep sM sY iv st md) y (bucketAdd b md)
        (by simpa [aggStep] using himg)
      exact ⟨c, hc, hcy.trans (bucketAdd_year b md),
        hcs.trans (bucketAdd_start b md)⟩
    · rw [if_neg hy] at himg
      obtain ⟨c, hc, hcy, hcs⟩ := ih (aggStep sM sY iv st md) y b
        (by simpa [aggStep] using himg)
      exact ⟨c, hc, hcy, hcs⟩

/-- Every bucket key present after a fold either was present before the fold
or is the derived calendar year of one of the folded records. -/
theorem buckets_key_from (sM sY : ℕ) (iv : InitialValues) :
    ∀ (l : List MonthData) (st : AggState) (y : ℕ) (c : YearBucket),
      (y, c) ∈ (l.foldl (aggStep sM sY iv) st).buckets →
      (∃ b, (y, b) ∈ st.buckets) ∨ ∃ md ∈ l, y = dateYear sY sM md.month := by
  intro l
  induction l with
  | nil => intro st y c h; exact Or.inl ⟨c, h⟩
  | cons md t ih =>
    intro st y c h
    rw [List.foldl_cons] at h
    rcases ih (aggStep sM sY iv st md) y c h with ⟨b, hb⟩ | ⟨md2, hmd2, hy2⟩
    · have hb2 : (y, b) ∈ (if st.buckets.any (fun p => p.1 = dateYear sY sM md.month)
          then st.buckets
          else st.buckets ++ [(dateYear sY sM md.month,
            newBucket iv st.lastState (dateYear sY sM md.month) md)]).map
          (fun p : ℕ × YearBucket => if p.1 = dateYear sY sM md.month
            then (p.1, bucketAdd p.2 md) else p) := by
        simpa [aggStep] using hb
      obtain ⟨p, hp, hfp⟩ := List.mem_map.mp hb2
      have hkey : p.1 = y := by
        by_cases hc2 : p.1 = dateYear sY sM md.month
        · rw [if_pos hc2] at hfp
          exact congrArg Prod.fst hfp
        · rw [if_neg hc2] at hfp
          exact congrArg Prod.fst hfp
      by_cases hany : st.buckets.any (fun p => p.1 = dateYear sY sM md.month) = true
      · rw [if_pos hany] at hp
        refine Or.inl ⟨p.2, ?_⟩
        have hpe : (y, p.2) = p := by rw [← hkey]
        rw [hpe]
        exact hp
      · rw [if_neg hany] at hp
        rcases List.mem_append.mp hp with hpl | hpr
        · refine Or.inl ⟨p.2, ?_⟩
          have hpe : (y, p.2) = p := by rw [← hkey]
          rw [hpe]
          exact hpl
        · refine Or.inr ⟨md, List.mem_cons_self md t, ?_⟩
          have hps := List.mem_singleton.mp hpr
          rw [← hkey, hps]
    · exact Or.inr ⟨md2, List.mem_cons_of_mem md hmd2, hy2⟩

/-- Membership through the insertion step of the year sort. -/
theorem mem_insertByYear (b x : YearBucket) :
    ∀ l : List YearBucket, x ∈ insertByYear b l ↔ x = b ∨ x ∈ l := by
  intro l
  induction l with
  | nil => simp [insertByYear]
  | cons c t ih =>
    simp only [insertByYear]
    split_ifs with h
    · simp [List.mem_cons]
    · simp only [List.mem_cons, ih]
      tauto

/-- The year sort neither adds nor removes buckets. -/
theorem mem_sortByYear (x : YearBucket) :
    ∀ l : List YearBucket, x ∈ sortByYear l ↔ x ∈ l := by
  intro l
  induction l with
  | nil => simp [sortByYear]
  | cons b t ih => simp [sortByYear, mem_insertByYear, ih]

/-- C4: whenever record `i` is the first record of its derived calendar year,
the output contains a bucket for that year whose beginning-of-year snapshot
equals the caller-supplied initial values when the record's month index is 0,
and otherwise the running state obtained by folding `updateRunState` over the
records processed before it (never by positional indexing). -/
theorem aggregate_yearStart_carry (recs : List MonthData) (sM sY : ℕ)
    (iv : InitialValues) (i : ℕ) (hi : i < recs.length)
    (hfirst : ∀ md ∈ recs.take i,
      dateYear sY sM md.month ≠ dateYear sY sM (recs.get ⟨i, hi⟩).month) :
    ∃ b ∈ aggregateToCalendarYears recs sM sY iv,
      b.year = dateYear sY sM (recs.get ⟨i, hi⟩).month ∧
      startStateOf b =
        (if (recs.get ⟨i, hi⟩).month = 0 then initRunState iv
         else (recs.take i).foldl updateRunState (initRunState iv)) := by
  set ri := recs.get ⟨i, hi⟩ with hri
  set Y := dateYear sY sM ri.month with hY
  set sti := (recs.take i).foldl (aggStep sM sY iv)
    (⟨[], initRunState iv⟩ : AggState) with hsti
  have hsplit : recs.take i ++ ri :: recs.drop (i + 1) = recs := by
    rw [hri, List.get_eq_getElem, ← List.drop_eq_getElem_cons hi,
      List.take_append_drop]
  have hnoY : ∀ b : YearBucket, (Y, b) ∈ sti.buckets → False := by
    intro b hbmem
    rw [hsti] at hbmem
    rcases buckets_key_from sM sY iv (recs.take i) ⟨[], initRunState iv⟩ Y b hbmem
      with ⟨b2, hb2⟩ | ⟨md, hmd, hymd⟩
    · simp at hb2
    · exact hfirst md hmd hymd.symm
  have hany : sti.buckets.any (fun p => p.1 = Y) = false := by
    rw [List.any_eq_false]
    intro p hp
    simp only [decide_eq_true_eq]
    intro hpY
    refine hnoY p.2 ?_
    have hpe : (Y, p.2) = p := by rw [← hpY]
    rw [hpe]
    exact hp
  have hstep : (Y, bucketAdd (newBucket iv sti.lastState Y ri) ri) ∈
      (aggStep sM sY iv sti ri).buckets := by
    simp only [aggStep, ← hY, hany]
    refine List.mem_map.mpr ⟨(Y, newBucket iv sti.lastState Y ri),
      List.mem_append_right _ (List.mem_singleton.mpr rfl), ?_⟩
    simp
  obtain ⟨c, hcmem, hcy, hcs⟩ := mem_buckets_preserved sM sY iv
    (recs.drop (i + 1)) (aggStep sM sY iv sti ri) Y
    (bucketAdd (newBucket iv sti.lastState Y ri) ri) hstep
  have hfold : (recs.drop (i + 1)).foldl (aggStep sM sY iv)
      (aggStep sM sY iv sti ri) =
      recs.foldl (aggStep sM sY iv) ⟨[], initRunState iv⟩ := by
    conv_rhs => rw [← hsplit]
    rw [List.foldl_append, List.foldl_cons, ← hsti]
  refine ⟨c, ?_, ?_, ?_⟩
  · simp only [aggregateToCalendarYears]
    rw [mem_sortByYear]
    refine List.mem_map.mpr ⟨(Y, c), ?_, rfl⟩
    rw [← hfold]
    exact hcmem
  · rw [hcy, bucketAdd_year, newBucket_year]
  · rw [hcs, bucketAdd_start, newBucket_start]
    rw [hsti, foldl_aggStep_lastState]

/-- Witness for C4: the carry-forward theorem discharged on the two-record
series crossing the 2024 → 2025 year boundary with initial balance 90000;
the second year's start state is the fold of the first record, i.e. the first
year's last recorded balance 89900. -/
theorem aggregate_yearStart_carry_witness :
    ∃ b ∈ aggregateToCalendarYears recsDemo 0 2024 ivDemo,
      b.year = dateYear 2024 0 (recsDemo.get ⟨1, by simp [recsDemo]⟩).month ∧
      startStateOf b =
        (if (recsDemo.get ⟨1, by simp [recsDemo]⟩).month = 0
         then initRunState ivDemo
         else (recsDemo.take 1).foldl updateRunState (initRunState ivDemo)) :=
  aggregate_yearStart_carry recsDemo 0 2024 ivDemo 1 (by simp [recsDemo])
    (by
      intro md hmd
      simp only [recsDemo] at hmd
      simp only [List.take_succ_cons, List.take_zero, List.mem_singleton] at hmd
      subst hmd
      norm_num [recsDemo, mdDemo0, mdDemo12, dateYear, jsFullYear])
